import Mathlib

/-!
Shallow embedding of the data-transfer app's core logic
(`src/app/(tabs)/index.tsx` and `src/app/(tabs)/settings.tsx`):
form validation, order-submission outcome handling, the persisted
transaction log, and the credential store.  JavaScript string
primitives (`trim`, `replace(/\s/g,'')`, `startsWith`, `toLowerCase`)
are modelled structurally over `List Char` so that every definition
reduces in the kernel.  Clock readings (`Date.now()`, `new Date()`)
are modelled as natural numbers (milliseconds since the epoch); the
ISO-8601 rendering of a timestamp is an injective, monotone function
of that number, so ordering facts are stated on the number itself.
-/

namespace DataTransfer

/-- Whitespace test used by both the JS regex `\s` and `String.prototype.trim`
(restricted to the ASCII whitespace the app can receive from its text inputs). -/
def isSpaceChar (c : Char) : Bool :=
  c = ' ' || c = '\t' || c = '\n' || c = '\r'

/-- Model of `s.trim()`: drop leading and trailing whitespace. -/
def jsTrim (s : String) : String :=
  String.mk (((s.data.dropWhile fun c => isSpaceChar c).reverse.dropWhile
    fun c => isSpaceChar c).reverse)

/-- Model of `s.replace(/\s/g, '')`: remove every whitespace character. -/
def stripWhitespace (s : String) : String :=
  String.mk (s.data.filter fun c => !isSpaceChar c)

/-- Decision of whether the first list is an initial segment of the second. -/
def leadsWith : List Char → List Char → Bool
  | [], _ => true
  | _ :: _, [] => false
  | p :: ps, c :: cs => p = c && leadsWith ps cs

/-- Model of `s.startsWith(p)`. -/
def strStartsWith (s p : String) : Bool :=
  leadsWith p.data s.data

/-- Model of `s.toLowerCase()` (ASCII case folding, as used on "MTN"/"Telecel"). -/
def jsToLowerCase (s : String) : String :=
  String.mk (s.data.map Char.toLower)

/-- Model of the regex test `/^\d{10}$/`: exactly ten decimal digits. -/
def isTenDigits (s : String) : Bool :=
  s.data.length = 10 && s.data.all Char.isDigit

/-- Model of `validateForm` (index.tsx lines 75-93).  Returns `none` when the
form passes, and `some msg` with the alert message of the first failing rule
otherwise.  The JS truthiness tests `!apiKey.trim()`, `!phone.trim()` and
`webhookUrl && ...` are emptiness tests on strings. -/
def validateForm (apiKey phone webhookUrl : String) : Option String :=
  if jsTrim apiKey = "" then some "Please set your API key in Settings first"
  else if jsTrim phone = "" then some "Please enter a phone number"
  else if isTenDigits (stripWhitespace phone) = false then
    some "Please enter a valid 10-digit phone number"
  else if webhookUrl ≠ "" ∧ strStartsWith webhookUrl "https://" = false then
    some "Webhook URL must start with https://"
  else none

/-- C1: the validator accepts exactly when the credential and phone are
non-empty after trimming, the whitespace-stripped phone is ten decimal
digits, and the webhook URL is empty or begins with "https://"; the four
rules are checked in that order and the reported message is the one of the
first failing rule. -/
theorem C1_validateForm_spec (apiKey phone webhookUrl : String) :
    (validateForm apiKey phone webhookUrl = none ↔
      jsTrim apiKey ≠ "" ∧ jsTrim phone ≠ "" ∧
      isTenDigits (stripWhitespace phone) = true ∧
      (webhookUrl = "" ∨ strStartsWith webhookUrl "https://" = true))
    ∧ (jsTrim apiKey = "" →
        validateForm apiKey phone webhookUrl =
          some "Please set your API key in Settings first")
    ∧ (jsTrim apiKey ≠ "" → jsTrim phone = "" →
        validateForm apiKey phone webhookUrl = some "Please enter a phone number")
    ∧ (jsTrim apiKey ≠ "" → jsTrim phone ≠ "" →
        isTenDigits (stripWhitespace phone) = false →
        validateForm apiKey phone webhookUrl =
          some "Please enter a valid 10-digit phone number")
    ∧ (jsTrim apiKey ≠ "" → jsTrim phone ≠ "" →
        isTenDigits (stripWhitespace phone) = true →
        webhookUrl ≠ "" → strStartsWith webhookUrl "https://" = false →
        validateForm apiKey phone webhookUrl =
          some "Webhook URL must start with https://") := by
  unfold validateForm
  split_ifs with h1 h2 h3 h4 <;> simp_all <;> tauto

/-- Witness for C1 at concrete inputs: a filled form with a spaced phone
number and an https webhook passes validation. -/
theorem C1_validateForm_spec_witness :
    validateForm "key" "054 348 2280" "https://example.com/hook" = none :=
  (C1_validateForm_spec "key" "054 348 2280" "https://example.com/hook").1.mpr
    (by refine ⟨?_, ?_, ?_, Or.inr ?_⟩ <;> decide)

/-- Decoded JSON body of the remote service's reply, after the cast to the
`ApiResponse` interface (index.tsx lines 20-31).  `message` is typed as a
plain string by that interface; per JS truthiness an omitted field behaves
as the empty string in the `||` fallbacks, so absence is modelled as `""`. -/
structure ApiResponse where
  status : String
  message : String
  order_id : Option Nat
  wallet_balance_before : Option Nat
  wallet_balance_after : Option Nat
  order_status : Option String
  phone : Option String
  size_mb : Option Nat
  size_gb : Option String
  network : Option String
deriving DecidableEq, Repr

/-- A persisted transaction-log entry: the spread `{...data, timestamp}` of
index.tsx line 151-154.  The ISO-8601 string from `toISOString()` is an
injective monotone image of the millisecond clock, so the timestamp is kept
as that number. -/
structure TransactionEntry where
  resp : ApiResponse
  timestamp : Nat
deriving DecidableEq, Repr

/-- State of the `transactions` slot of the key-value store, as observed by
`saveTransaction` (index.tsx lines 147-160):
* `absent`: `getItem` returned null (or the stored string was empty; both are
  falsy, so `transactions ? JSON.parse(transactions) : []` yields `[]`);
* `corrupt`: a stored string that is not valid JSON — `JSON.parse` throws,
  the surrounding `catch` logs it, and the function returns with no write;
* `nonSeq`: a stored string that parses to a non-array value — calling
  `.unshift` on it throws, reaching the same `catch`, again with no write;
* `seq l`: a stored JSON array of entries. -/
inductive LogSlot
  | absent
  | corrupt
  | nonSeq
  | seq (l : List TransactionEntry)
deriving DecidableEq, Repr

/-- Model of `saveTransaction` (index.tsx lines 147-160).  The second
component records whether the `catch` branch ran (the error was logged and
nothing was written); the function itself never throws to its caller.
On a readable array the new entry is prepended (`unshift`) and the result
truncated to the first 50 entries (`slice(0, 50)`) before being written. -/
def saveTransaction : LogSlot → ApiResponse → Nat → LogSlot × Bool
  | .absent, d, t => (.seq [⟨d, t⟩], false)
  | .corrupt, _, _ => (.corrupt, true)
  | .nonSeq, _, _ => (.nonSeq, true)
  | .seq l, d, t => (.seq ((⟨d, t⟩ :: l).take 50), false)

/-- Entry built from one append call's arguments (response data, clock). -/
def entryOf (p : ApiResponse × Nat) : TransactionEntry :=
  ⟨p.1, p.2⟩

/-- Iterated appends: each element of `es` is saved in order via
`saveTransaction`, threading the persisted slot. -/
def appendAll (slot : LogSlot) (es : List (ApiResponse × Nat)) : LogSlot :=
  es.foldl (fun s e => (saveTransaction s e.1 e.2).1) slot

/-- Sample decoded response used to instantiate witnesses. -/
def sampleResp : ApiResponse :=
  { status := "success", message := "Order received", order_id := some 1
    wallet_balance_before := some 10, wallet_balance_after := some 8
    order_status := some "initiated", phone := some "0543482280"
    size_mb := some 1024, size_gb := some "1.0 GB", network := some "mtn" }

/-- Truncating the tail before the whole changes nothing: auxiliary list fact
for iterated prepend-and-truncate. -/
theorem take_append_take {α : Type} (xs ys : List α) (n : Nat) :
    (xs ++ ys.take n).take n = (xs ++ ys).take n := by
  rw [List.take_append_eq_append_take, List.take_append_eq_append_take,
    List.take_take, Nat.min_eq_left (Nat.sub_le n xs.length)]

/-- Closed form of iterated appends on a well-formed sequence slot. -/
theorem appendAll_seq (es : List (ApiResponse × Nat)) (l₀ : List TransactionEntry)
    (h : es ≠ []) :
    appendAll (LogSlot.seq l₀) es =
      LogSlot.seq (((es.map entryOf).reverse ++ l₀).take 50) := by
  induction es generalizing l₀ with
  | nil => exact absurd rfl h
  | cons e es ih =>
    show appendAll (LogSlot.seq ((entryOf e :: l₀).take 50)) es = _
    rcases Decidable.em (es = []) with he | he
    · subst he
      simp [appendAll]
    · rw [ih _ he, take_append_take]
      simp

/-- C2: after more than 50 appends, starting from any log state (absent, or
an arbitrary stored sequence), the persisted log holds exactly the 50 most
recently appended entries, newest first; moreover any single append on a
sequence slot leaves at most 50 entries. -/
theorem C2_log_cap (l₀ : List TransactionEntry) (es : List (ApiResponse × Nat))
    (h : 50 < es.length) :
    appendAll (LogSlot.seq l₀) es = LogSlot.seq ((es.map entryOf).reverse.take 50)
    ∧ appendAll LogSlot.absent es = LogSlot.seq ((es.map entryOf).reverse.take 50)
    ∧ ((es.map entryOf).reverse.take 50).length = 50
    ∧ ∀ (slot : LogSlot) (d : ApiResponse) (t : Nat) (l' : List TransactionEntry),
        (saveTransaction slot d t).1 = LogSlot.seq l' → l'.length ≤ 50 := by
  have hne : es ≠ [] := by
    intro he
    rw [he] at h
    simp at h
  have hlen : 50 ≤ (es.map entryOf).reverse.length := by
    simp
    omega
  refine ⟨?_, ?_, ?_, ?_⟩
  · rw [appendAll_seq es l₀ hne, List.take_append_of_le_length hlen]
  · match es, hne with
    | e :: es, _ =>
      show appendAll (LogSlot.seq [entryOf e]) es = _
      have hne' : es ≠ [] := by
        intro he
        rw [he] at h
        simp at h
      rw [appendAll_seq es [entryOf e] hne']
      have hrev : ((e :: es).map entryOf).reverse =
          (es.map entryOf).reverse ++ [entryOf e] := by simp
      rw [hrev]
  · simp only [List.length_take, List.length_reverse, List.length_map]
    omega
  · intro slot d t l' hl
    cases slot with
    | absent =>
      simp only [saveTransaction] at hl
      cases hl
      simp
    | corrupt => simp [saveTransaction] at hl
    | nonSeq => simp [saveTransaction] at hl
    | seq l =>
      simp only [saveTransaction] at hl
      cases hl
      rw [List.length_take]
      exact Nat.min_le_left _ _

/-- Witness for C2: 51 appends onto the empty log leave the closed-form
50-entry sequence. -/
theorem C2_log_cap_witness :
    appendAll (LogSlot.seq []) (List.replicate 51 (sampleResp, 0)) =
      LogSlot.seq (((List.replicate 51 (sampleResp, 0)).map entryOf).reverse.take 50) :=
  (C2_log_cap [] (List.replicate 51 (sampleResp, 0)) (by simp)).1

/-- C3 counterexample: on a malformed (unparsable) stored value the append is
a caught-error no-op — the slot stays corrupt and the claimed one-element log
is not written. -/
theorem C3_counterexample :
    saveTransaction LogSlot.corrupt sampleResp 0 = (LogSlot.corrupt, true)
    ∧ (saveTransaction LogSlot.corrupt sampleResp 0).1 ≠
        LogSlot.seq [{ resp := sampleResp, timestamp := 0 }] := by
  constructor
  · rfl
  · decide

/-- C3 amended: append never throws (every error is caught and flagged); on
an absent slot it writes the one-element log; on a malformed slot (unparsable
or non-sequence) it is a no-op with the error caught; on a well-formed
sequence it prepends the stamped entry, truncates to 50, and retains every
previously stored entry except those beyond the cap. -/
theorem C3_append_behaviour (d : ApiResponse) (t : Nat) (l : List TransactionEntry) :
    saveTransaction LogSlot.absent d t = (LogSlot.seq [⟨d, t⟩], false)
    ∧ saveTransaction LogSlot.corrupt d t = (LogSlot.corrupt, true)
    ∧ saveTransaction LogSlot.nonSeq d t = (LogSlot.nonSeq, true)
    ∧ saveTransaction (LogSlot.seq l) d t =
        (LogSlot.seq ((⟨d, t⟩ :: l).take 50), false)
    ∧ ∀ e ∈ l.take 49, e ∈ ((⟨d, t⟩ : TransactionEntry) :: l).take 50 := by
  refine ⟨rfl, rfl, rfl, rfl, ?_⟩
  intro e he
  rw [List.take_succ_cons]
  exact List.mem_cons_of_mem _ he

/-- Witness for C3's amended statement: appending to the absent slot writes
exactly the new entry, and an entry of a stored log survives an append. -/
theorem C3_append_behaviour_witness :
    saveTransaction LogSlot.absent sampleResp 3 =
      (LogSlot.seq [{ resp := sampleResp, timestamp := 3 }], false)
    ∧ ({ resp := sampleResp, timestamp := 1 } : TransactionEntry) ∈
        (({ resp := sampleResp, timestamp := 2 } : TransactionEntry) ::
          [{ resp := sampleResp, timestamp := 1 }]).take 50 :=
  ⟨(C3_append_behaviour sampleResp 3 []).1,
    (C3_append_behaviour sampleResp 2 [{ resp := sampleResp, timestamp := 1 }]).2.2.2.2
      _ (by decide)⟩

/-- Static status-code lookup table `ERROR_MESSAGES` (index.tsx lines 38-47). -/
def ERROR_MESSAGES (status : Nat) : Option String :=
  if status = 400 then some "Missing required fields or invalid input"
  else if status = 401 then some "API key is missing"
  else if status = 403 then some "Invalid API key"
  else if status = 409 then some "Duplicate reference - transaction already exists"
  else if status = 422 then some "Invalid bundle size or unsupported network"
  else if status = 402 then some "Insufficient wallet balance"
  else if status = 429 then some "Rate limit exceeded - please wait before trying again"
  else if status = 500 then some "System error - please try again later"
  else none

/-- JS `a || b` on string-valued operands: an absent field and the empty
string are both falsy and fall through to the alternative. -/
def jsOrElse (a : Option String) (b : String) : String :=
  match a with
  | some s => if s = "" then b else s
  | none => b

/-- The error message reported in the failure branch (index.tsx line 136):
`ERROR_MESSAGES[response.status] || data.message || 'Unknown error occurred'`. -/
def errorMessageFor (status : Nat) (body : ApiResponse) : String :=
  jsOrElse (ERROR_MESSAGES status) (jsOrElse (some body.message) "Unknown error occurred")

/-- Screen state entering `sendDataBundle`: the five state hooks of
index.tsx lines 50-55 that the submission reads. -/
structure FormState where
  network : String
  selectedSize : Nat
  phone : String
  webhookUrl : String
  apiKey : String
deriving DecidableEq, Repr

/-- JSON body of the outbound POST (index.tsx lines 100-107).  The
conditional spread `...(webhookUrl && { webhook_url: webhookUrl })` adds the
field only for a non-empty URL, so it is an `Option`; `none` means the key
is absent from the serialized object. -/
structure RequestBody where
  api_key : String
  phone : String
  size_mb : Nat
  network : String
  reference : String
  webhook_url : Option String
deriving DecidableEq, Repr

/-- Request-body construction at clock reading `tReq` (`Date.now()`):
template interpolation of a number renders its decimal digits, i.e.
`Nat.repr`. -/
def buildRequestBody (st : FormState) (tReq : Nat) : RequestBody :=
  { api_key := st.apiKey
    phone := stripWhitespace st.phone
    size_mb := st.selectedSize
    network := jsToLowerCase st.network
    reference := "TXN_" ++ Nat.repr tReq
    webhook_url := if st.webhookUrl = "" then none else some st.webhookUrl }

/-- An HTTP response that was received and whose body decoded: numeric
status plus the decoded JSON body. -/
structure HttpResponse where
  status : Nat
  body : ApiResponse
deriving DecidableEq, Repr

/-- Model of `response.ok`: status in the 200-299 range. -/
def responseOk (r : HttpResponse) : Bool :=
  decide (200 ≤ r.status) && decide (r.status ≤ 299)

/-- Result of one submission that received a response: the body POSTed, the
outcome classification, the alert message of the failure branch, the two
form fields after the handler ran, and the persisted log slot after it. -/
structure SendOutcome where
  request : RequestBody
  success : Bool
  errorMessage : Option String
  newPhone : String
  newWebhookUrl : String
  newLog : LogSlot
deriving DecidableEq, Repr

/-- Model of `sendDataBundle` (index.tsx lines 95-145) from the point a
response arrives and decodes; `tReq` is the clock at request construction
and `tSave` the clock at the log write.  The network-failure `catch` branch
(generic connectivity alert, no write, no reset) is outside this model. -/
def sendDataBundle (st : FormState) (slot : LogSlot) (resp : HttpResponse)
    (tReq tSave : Nat) : SendOutcome :=
  if responseOk resp = true ∧ resp.body.status = "success" then
    { request := buildRequestBody st tReq
      success := true
      errorMessage := none
      newPhone := ""
      newWebhookUrl := ""
      newLog := (saveTransaction slot resp.body tSave).1 }
  else
    { request := buildRequestBody st tReq
      success := false
      errorMessage := some (errorMessageFor resp.status resp.body)
      newPhone := st.phone
      newWebhookUrl := st.webhookUrl
      newLog := slot }

/-- Sample form state used to instantiate witnesses. -/
def sampleForm : FormState :=
  { network := "MTN", selectedSize := 1024, phone := "054 348 2280"
    webhookUrl := "", apiKey := "key" }

/-- Sample successful response used to instantiate witnesses. -/
def sampleOkResp : HttpResponse :=
  { status := 200, body := sampleResp }

/-- C4: a non-success outcome reports, for a status in the static table, the
fixed string of that status regardless of the body (409 always the duplicate
reference message); for any status outside the table, the body's message
field, falling back to the generic unknown-error string when that field is
absent (per the response interface, an absent field is the empty string). -/
theorem C4_error_mapping (st : FormState) (slot : LogSlot) (resp : HttpResponse)
    (tReq tSave : Nat) (body : ApiResponse) (status : Nat) :
    ((sendDataBundle st slot resp tReq tSave).success = false →
      (sendDataBundle st slot resp tReq tSave).errorMessage =
        some (errorMessageFor resp.status resp.body))
    ∧ errorMessageFor 400 body = "Missing required fields or invalid input"
    ∧ errorMessageFor 401 body = "API key is missing"
    ∧ errorMessageFor 403 body = "Invalid API key"
    ∧ errorMessageFor 409 body = "Duplicate reference - transaction already exists"
    ∧ errorMessageFor 422 body = "Invalid bundle size or unsupported network"
    ∧ errorMessageFor 402 body = "Insufficient wallet balance"
    ∧ errorMessageFor 429 body = "Rate limit exceeded - please wait before trying again"
    ∧ errorMessageFor 500 body = "System error - please try again later"
    ∧ (status ≠ 400 → status ≠ 401 → status ≠ 403 → status ≠ 409 → status ≠ 422 →
        status ≠ 402 → status ≠ 429 → status ≠ 500 →
        (body.message ≠ "" → errorMessageFor status body = body.message)
        ∧ (body.message = "" → errorMessageFor status body = "Unknown error occurred")) := by
  refine ⟨?_, rfl, rfl, rfl, rfl, rfl, rfl, rfl, rfl, ?_⟩
  · intro h
    unfold sendDataBundle at h ⊢
    split_ifs at h ⊢ with hc
    all_goals rfl
  · intro h400 h401 h403 h409 h422 h402 h429 h500
    constructor
    · intro hm
      simp [errorMessageFor, ERROR_MESSAGES, jsOrElse,
        h400, h401, h403, h409, h422, h402, h429, h500, hm]
    · intro hm
      simp [errorMessageFor, ERROR_MESSAGES, jsOrElse,
        h400, h401, h403, h409, h422, h402, h429, h500, hm]

/-- Witness for C4: status 404 is outside the table, so the body's message
comes through. -/
theorem C4_error_mapping_witness :
    errorMessageFor 404 sampleResp = "Order received" :=
  (((C4_error_mapping sampleForm LogSlot.absent sampleOkResp 0 0 sampleResp 404).2.2.2.2.2.2.2.2.2
      (by decide) (by decide) (by decide) (by decide) (by decide) (by decide)
      (by decide) (by decide)).1 (by decide))

/-- C5: the submission is treated as success exactly when the HTTP status is
in the success range and the decoded body's status equals "success"; then
the new entry (stamped with the save-time clock, which lies between the
submission start and the completion time) is prepended to the persisted
log and the phone and webhook fields are reset to empty. -/
theorem C5_success_spec (st : FormState) (slot : LogSlot) (resp : HttpResponse)
    (tReq tSave tEnd : Nat) (l : List TransactionEntry)
    (hclock : tReq ≤ tSave ∧ tSave ≤ tEnd) :
    ((sendDataBundle st slot resp tReq tSave).success = true ↔
      responseOk resp = true ∧ resp.body.status = "success")
    ∧ (responseOk resp = true → resp.body.status = "success" →
        (sendDataBundle st slot resp tReq tSave).newPhone = ""
        ∧ (sendDataBundle st slot resp tReq tSave).newWebhookUrl = ""
        ∧ (slot = LogSlot.absent →
            (sendDataBundle st slot resp tReq tSave).newLog =
              LogSlot.seq [⟨resp.body, tSave⟩])
        ∧ (slot = LogSlot.seq l →
            (sendDataBundle st slot resp tReq tSave).newLog =
              LogSlot.seq ((⟨resp.body, tSave⟩ :: l).take 50))
        ∧ tReq ≤ (⟨resp.body, tSave⟩ : TransactionEntry).timestamp
        ∧ (⟨resp.body, tSave⟩ : TransactionEntry).timestamp ≤ tEnd) := by
  constructor
  · unfold sendDataBundle
    split_ifs with h
    · exact iff_of_true rfl h
    · exact iff_of_false (by simp) h
  · intro hok hsucc
    have hcond : responseOk resp = true ∧ resp.body.status = "success" := ⟨hok, hsucc⟩
    refine ⟨?_, ?_, ?_, ?_, hclock.1, hclock.2⟩
    · simp [sendDataBundle, hcond]
    · simp [sendDataBundle, hcond]
    · intro hs
      subst hs
      simp [sendDataBundle, hcond, saveTransaction]
    · intro hs
      subst hs
      simp [sendDataBundle, hcond, saveTransaction]

/-- Witness for C5: a 200 response whose body status is "success" appends
the stamped entry to the empty log and flags success. -/
theorem C5_success_spec_witness :
    (sendDataBundle sampleForm LogSlot.absent sampleOkResp 1 2).success = true
    ∧ (sendDataBundle sampleForm LogSlot.absent sampleOkResp 1 2).newLog =
        LogSlot.seq [{ resp := sampleResp, timestamp := 2 }] :=
  ⟨(C5_success_spec sampleForm LogSlot.absent sampleOkResp 1 2 3 []
      ⟨by decide, by decide⟩).1.mpr ⟨by decide, by decide⟩,
    ((C5_success_spec sampleForm LogSlot.absent sampleOkResp 1 2 3 []
      ⟨by decide, by decide⟩).2 (by decide) (by decide)).2.2.1 rfl⟩

/-- Auxiliary: the whitespace-stripped string has no whitespace left. -/
theorem stripWhitespace_no_space (s : String) :
    (stripWhitespace s).data.all (fun c => !isSpaceChar c) = true := by
  rw [List.all_eq_true]
  intro c hc
  exact (List.mem_filter.mp hc).2

/-- C6: for a validated submission the POSTed body carries exactly the
credential, the whitespace-stripped phone, the selected size, the
lowercased network, the fresh time-derived reference, and the webhook URL
field only when the webhook input is non-empty (omitted entirely when it is
empty). -/
theorem C6_request_body (st : FormState) (slot : LogSlot) (resp : HttpResponse)
    (tReq tSave : Nat)
    (hv : validateForm st.apiKey st.phone st.webhookUrl = none) :
    (sendDataBundle st slot resp tReq tSave).request.api_key = st.apiKey
    ∧ (sendDataBundle st slot resp tReq tSave).request.phone = stripWhitespace st.phone
    ∧ (sendDataBundle st slot resp tReq tSave).request.phone.data.all
        (fun c => !isSpaceChar c) = true
    ∧ (sendDataBundle st slot resp tReq tSave).request.size_mb = st.selectedSize
    ∧ (sendDataBundle st slot resp tReq tSave).request.network = jsToLowerCase st.network
    ∧ (sendDataBundle st slot resp tReq tSave).request.reference = "TXN_" ++ Nat.repr tReq
    ∧ (st.webhookUrl = "" →
        (sendDataBundle st slot resp tReq tSave).request.webhook_url = none)
    ∧ (st.webhookUrl ≠ "" →
        (sendDataBundle st slot resp tReq tSave).request.webhook_url = some st.webhookUrl) := by
  have hreq : (sendDataBundle st slot resp tReq tSave).request = buildRequestBody st tReq := by
    unfold sendDataBundle
    split <;> rfl
  rw [hreq]
  refine ⟨rfl, rfl, stripWhitespace_no_space st.phone, rfl, rfl, rfl, ?_, ?_⟩
  · intro hw
    simp [buildRequestBody, hw]
  · intro hw
    simp [buildRequestBody, hw]

/-- Witness for C6: the validated sample form yields the stripped phone and
omits the webhook field. -/
theorem C6_request_body_witness :
    (sendDataBundle sampleForm LogSlot.absent sampleOkResp 7 8).request.phone =
      stripWhitespace "054 348 2280"
    ∧ (sendDataBundle sampleForm LogSlot.absent sampleOkResp 7 8).request.webhook_url = none :=
  ⟨(C6_request_body sampleForm LogSlot.absent sampleOkResp 7 8 (by decide)).2.1,
    (C6_request_body sampleForm LogSlot.absent sampleOkResp 7 8 (by decide)).2.2.2.2.2.2.1 rfl⟩

/-- C8 (implicit): a 2xx response whose body status is not "success" is an
error — nothing is appended, the form fields keep their values, the static
table has no entry for a 2xx status, so the report falls back to the body's
message (or the generic unknown-error string when that is absent/empty). -/
theorem C8_2xx_non_success (st : FormState) (slot : LogSlot) (resp : HttpResponse)
    (tReq tSave : Nat) (hok : responseOk resp = true)
    (hst : resp.body.status ≠ "success") :
    (sendDataBundle st slot resp tReq tSave).success = false
    ∧ (sendDataBundle st slot resp tReq tSave).newLog = slot
    ∧ (sendDataBundle st slot resp tReq tSave).newPhone = st.phone
    ∧ (sendDataBundle st slot resp tReq tSave).newWebhookUrl = st.webhookUrl
    ∧ ERROR_MESSAGES resp.status = none
    ∧ (sendDataBundle st slot resp tReq tSave).errorMessage =
        some (jsOrElse (some resp.body.message) "Unknown error occurred") := by
  have hcond : ¬(responseOk resp = true ∧ resp.body.status = "success") := by
    intro hc
    exact hst hc.2
  have hrange : 200 ≤ resp.status ∧ resp.status ≤ 299 := by
    simp [responseOk] at hok
    exact hok
  have htable : ERROR_MESSAGES resp.status = none := by
    have h1 := hrange.1
    have h2 := hrange.2
    unfold ERROR_MESSAGES
    split_ifs <;> first | rfl | omega
  refine ⟨?_, ?_, ?_, ?_, htable, ?_⟩
  all_goals simp [sendDataBundle, hcond, errorMessageFor, htable, jsOrElse]

/-- Witness for C8: a 200 reply with body status "error" keeps the state and
reports the body's message. -/
theorem C8_2xx_non_success_witness :
    (sendDataBundle sampleForm LogSlot.absent
        { status := 200, body := { sampleResp with status := "error" } } 0 1).success = false
    ∧ (sendDataBundle sampleForm LogSlot.absent
        { status := 200, body := { sampleResp with status := "error" } } 0 1).newLog =
          LogSlot.absent :=
  ⟨(C8_2xx_non_success sampleForm LogSlot.absent
      { status := 200, body := { sampleResp with status := "error" } } 0 1
      (by decide) (by decide)).1,
    (C8_2xx_non_success sampleForm LogSlot.absent
      { status := 200, body := { sampleResp with status := "error" } } 0 1
      (by decide) (by decide)).2.1⟩

/-- Decimal digit list of a number, most significant first: the reference
implementation that `Nat.toDigitsCore` computes with fuel. -/
def decRep (n : Nat) : List Char :=
  if h : n < 10 then [Nat.digitChar n]
  else decRep (n / 10) ++ [Nat.digitChar (n % 10)]
termination_by n
decreasing_by exact Nat.div_lt_self (by omega) (by omega)

/-- Numeric value of a decimal digit character. -/
def digitVal (c : Char) : Nat := c.toNat - 48

/-- Decode a most-significant-first decimal digit list back to a number. -/
def natOfRep (l : List Char) : Nat :=
  l.foldl (fun a c => 10 * a + digitVal c) 0

/-- Digit characters below ten decode back to their value. -/
theorem digitVal_digitChar : ∀ n < 10, digitVal (Nat.digitChar n) = n := by decide

/-- Decoding of a snoc: the last digit is the least significant. -/
theorem natOfRep_snoc (xs : List Char) (c : Char) :
    natOfRep (xs ++ [c]) = 10 * natOfRep xs + digitVal c := by
  simp [natOfRep, List.foldl_append]

/-- The digit list of a number decodes back to it. -/
theorem natOfRep_decRep (n : Nat) : natOfRep (decRep n) = n := by
  induction n using Nat.strong_induction_on with
  | _ n ih =>
    rw [decRep]
    split_ifs with h
    · show natOfRep ([] ++ [Nat.digitChar n]) = n
      rw [natOfRep_snoc]
      simp [natOfRep, digitVal_digitChar n h]
    · rw [natOfRep_snoc, ih (n / 10) (Nat.div_lt_self (by omega) (by omega)),
        digitVal_digitChar (n % 10) (Nat.mod_lt n (by omega))]
      omega

/-- With enough fuel, the core digit routine computes `decRep` onto the
accumulator. -/
theorem toDigitsCore_eq_decRep (fuel : Nat) : ∀ (n : Nat) (ds : List Char),
    0 < fuel → n < 10 ^ fuel → Nat.toDigitsCore 10 fuel n ds = decRep n ++ ds := by
  induction fuel with
  | zero => intro n ds h _; omega
  | succ f ih =>
    intro n ds _ hlt
    show Nat.toDigitsCore 10 (f + 1) n ds = decRep n ++ ds
    simp only [Nat.toDigitsCore]
    by_cases hd : n / 10 = 0
    · have hn : n < 10 := (Nat.div_eq_zero_iff (by omega)).mp hd
      rw [if_pos hd, decRep, dif_pos hn, Nat.mod_eq_of_lt hn]
      rfl
    · have hf : 0 < f := by
        rcases Nat.eq_zero_or_pos f with h0 | h0
        · subst h0
          simp at hlt
          omega
        · exact h0
      have hdiv : n / 10 < 10 ^ f := by
        rw [Nat.div_lt_iff_lt_mul (by omega)]
        calc n < 10 ^ (f + 1) := hlt
          _ = 10 ^ f * 10 := by rw [Nat.pow_succ]
      rw [if_neg hd, ih (n / 10) _ hf hdiv]
      have hn : ¬n < 10 := by
        intro hn
        exact hd (Nat.div_eq_of_lt hn)
      conv_rhs => rw [decRep, dif_neg hn]
      simp

/-- The decimal string of a number is its digit list. -/
theorem repr_eq_decRep (n : Nat) : Nat.repr n = (decRep n).asString := by
  show (Nat.toDigits 10 n).asString = _
  unfold Nat.toDigits
  have hb : n < 10 ^ (n + 1) := by
    have h1 : n < 2 ^ n := Nat.lt_two_pow n
    have h2 : 2 ^ n ≤ 10 ^ n := Nat.pow_le_pow_left (by omega) n
    have h3 : 10 ^ n ≤ 10 ^ (n + 1) := Nat.pow_le_pow_right (by omega) (Nat.le_succ n)
    omega
  rw [toDigitsCore_eq_decRep (n + 1) n [] (Nat.succ_pos n) hb, List.append_nil]

/-- Decimal printing of naturals is injective. -/
theorem nat_repr_injective {m n : Nat} (h : Nat.repr m = Nat.repr n) : m = n := by
  rw [repr_eq_decRep, repr_eq_decRep] at h
  have hdata : decRep m = decRep n := by
    simpa [List.asString] using congrArg String.data h
  calc m = natOfRep (decRep m) := (natOfRep_decRep m).symm
    _ = natOfRep (decRep n) := by rw [hdata]
    _ = n := natOfRep_decRep n

/-- Two submission states, identical except for the recipient phone. -/
def formA : FormState :=
  { network := "MTN", selectedSize := 1024, phone := "0543482280"
    webhookUrl := "", apiKey := "key" }

/-- Second distinct submission state for the reference collision. -/
def formB : FormState :=
  { formA with phone := "0543482281" }

/-- C7 counterexample: two distinct submissions whose clock reads the same
millisecond receive the same `TXN_`-reference — the reference is not unique
per submission. -/
theorem C7_counterexample :
    formA ≠ formB
    ∧ (buildRequestBody formA 7).reference = (buildRequestBody formB 7).reference := by
  constructor
  · decide
  · rfl

/-- C7 amended: the reference depends only on the clock reading, and two
submissions whose references are generated at distinct milliseconds get
distinct references; within one millisecond all submissions collide. -/
theorem C7_reference_unique_per_time (st₁ st₂ : FormState) (t₁ t₂ : Nat)
    (h : t₁ ≠ t₂) :
    (buildRequestBody st₁ t₁).reference ≠ (buildRequestBody st₂ t₂).reference := by
  intro he
  apply h
  apply nat_repr_injective
  have hdata : ("TXN_" ++ Nat.repr t₁).data = ("TXN_" ++ Nat.repr t₂).data :=
    congrArg String.data he
  simp only [String.data_append] at hdata
  have : (Nat.repr t₁).data = (Nat.repr t₂).data :=
    List.append_cancel_left hdata
  cases hr₁ : Nat.repr t₁ with
  | mk d₁ =>
    cases hr₂ : Nat.repr t₂ with
    | mk d₂ =>
      rw [hr₁, hr₂] at this
      simp at this
      rw [this]

/-- Witness for C7's amended statement: references one millisecond apart
differ. -/
theorem C7_reference_unique_per_time_witness :
    (buildRequestBody formA 1).reference ≠ (buildRequestBody formB 2).reference :=
  C7_reference_unique_per_time formA formB 1 2 (by decide)

/-- Persistent key-value store as the app uses it: the two logical keys
`api_key` and `transactions` (settings.tsx and index.tsx). -/
structure Store where
  api_key : Option String
  transactions : LogSlot
deriving DecidableEq, Repr

/-- Model of `loadApiKey` (settings.tsx lines 23-33): `if (key)` keeps the
previous UI value when the stored value is absent or empty (falsy). -/
def loadApiKey (store : Store) (uiKey : String) : String :=
  match store.api_key with
  | some k => if k = "" then uiKey else k
  | none => uiKey

/-- Model of `saveApiKey` (settings.tsx lines 35-49): empty-after-trim input
is rejected with the validation alert and no write; otherwise the trimmed
value overwrites the stored credential. -/
def saveApiKey (store : Store) (tempApiKey : String) : Store × Option String :=
  if jsTrim tempApiKey = "" then (store, some "Please enter an API key")
  else ({ store with api_key := some (jsTrim tempApiKey) }, none)

/-- Model of the confirmed `clearApiKey` action (settings.tsx lines 51-73):
`removeItem('api_key')` only. -/
def clearApiKey (store : Store) : Store :=
  { store with api_key := none }

/-- C9: saving rejects every value that trims to empty, leaving the store
untouched; any other value overwrites the credential with its trimmed form,
reports no error, and a subsequent load returns the saved credential. -/
theorem C9_saveApiKey_spec (store : Store) (v uiKey : String) :
    (jsTrim v = "" →
      saveApiKey store v = (store, some "Please enter an API key"))
    ∧ (jsTrim v ≠ "" →
      (saveApiKey store v).1.api_key = some (jsTrim v)
      ∧ (saveApiKey store v).2 = none
      ∧ loadApiKey (saveApiKey store v).1 uiKey = jsTrim v) := by
  constructor
  · intro h
    simp [saveApiKey, h]
  · intro h
    refine ⟨?_, ?_, ?_⟩ <;> simp [saveApiKey, loadApiKey, h]

/-- Sample store used to instantiate witnesses. -/
def sampleStore : Store :=
  { api_key := none, transactions := LogSlot.seq [{ resp := sampleResp, timestamp := 1 }] }

/-- Witness for C9: saving a padded key stores and reloads its trimmed form. -/
theorem C9_saveApiKey_spec_witness :
    (saveApiKey sampleStore " secret-key ").1.api_key = some "secret-key"
    ∧ loadApiKey (saveApiKey sampleStore " secret-key ").1 "" = "secret-key" := by
  have h := (C9_saveApiKey_spec sampleStore " secret-key " "").2 (by decide)
  exact ⟨h.1, h.2.2⟩

/-- C10: clearing the credential removes only the credential key; the
persisted transaction log — in particular a non-empty one — is untouched. -/
theorem C10_clearApiKey_frame (store : Store) :
    (clearApiKey store).transactions = store.transactions
    ∧ (clearApiKey store).api_key = none :=
  ⟨rfl, rfl⟩

end DataTransfer
